import Mathlib

/-!
Verification development for the DWAS job-orchestration and scan-aggregation
engine (`scanner/scanner.py`, `backend/tasks.py`, `backend/main.py`,
`backend/models.py`).  The Python code is shallowly embedded: JSON values are
an inductive type, each external-tool invocation is abstracted by the pair of
events the adapter code branches on (did `subprocess.run` itself raise, and
did `json.loads` on the captured stdout succeed), exception propagation is
`Except`, and the single mutable job row is explicit state.
-/

namespace DWAS

/-- JSON values as handled by the Python json.loads and json.dumps
functions.  Objects keep insertion order, as Python dicts do. -/
inductive Json where
  | null
  | bool (b : Bool)
  | num (n : Int)
  | str (s : String)
  | arr (elems : List Json)
  | obj (fields : List (String × Json))
deriving Repr

/-- Python `d[k]` / `d.get(k)` on a JSON object: first binding of the key,
`none` when the key is absent or the value is not an object. -/
def Json.getEntry (j : Json) (key : String) : Option Json :=
  match j with
  | .obj fields => fields.lookup key
  | _ => none

/-- Python `d.get(k, default)`. -/
def pyGetD (j : Json) (key : String) (default : Json) : Json :=
  (j.getEntry key).getD default

/-- A JSON value used where Python expects a list (`len`, iteration,
slicing).  All uses in the source apply it to values that are lists. -/
def pyList (j : Json) : List Json :=
  match j with
  | .arr elems => elems
  | _ => []

/-- Outcome of one external-tool invocation, as observed by an adapter in
`scanner/scanner.py`: either `subprocess.run` itself raised (e.g.
FileNotFoundError when the tool binary is missing — nothing in the adapter
catches that), or the process completed and json.loads applied to the
captured stdout either produced a value or raised (caught by the bare
except clause of the adapter).  The exit code is never inspected by the
source, so it is not modelled. -/
inductive ToolRun where
  | raised (msg : String)
  | output (parsed : Option Json)

/-- The adapter `run_bandit` (scanner.py lines 9-18): run bandit, parse its
stdout as JSON, and turn a parse failure into an object binding the key
"error" to the reason "Bandit scan failed".  An exception from
subprocess.run propagates (modelled as `Except.error`). -/
def run_bandit (r : ToolRun) : Except String Json :=
  match r with
  | .raised msg => .error msg
  | .output (some j) => .ok j
  | .output none => .ok (Json.obj [("error", Json.str "Bandit scan failed")])

/-- The adapter `run_semgrep` (scanner.py lines 20-29). -/
def run_semgrep (r : ToolRun) : Except String Json :=
  match r with
  | .raised msg => .error msg
  | .output (some j) => .ok j
  | .output none => .ok (Json.obj [("error", Json.str "Semgrep scan failed")])

/-- The result `run_pip_audit` returns when `requirements.txt` does not
exist in the project root (scanner.py line 34). -/
def noManifestResult : Json :=
  Json.obj [("vulnerabilities_found", Json.num 0), ("details", Json.arr [])]

/-- The adapter `run_pip_audit` (scanner.py lines 31-44): when no
`requirements.txt` exists the external tool is not invoked (the result does
not depend on the `ToolRun`) and `noManifestResult` is returned; otherwise
run pip-audit and parse its stdout. -/
def run_pip_audit (manifestExists : Bool) (r : ToolRun) : Except String Json :=
  if !manifestExists then
    .ok noManifestResult
  else
    match r with
    | .raised msg => .error msg
    | .output (some j) => .ok j
    | .output none => .ok (Json.obj [("error", Json.str "pip-audit failed")])

/-- The adapter `run_pylint` (scanner.py lines 46-56): one invocation per
discovered Python file (here the list of file names, each with the outcome
of its invocation); a parse failure appends an object binding "file" to the
file name and "error" to "pylint failed", while an exception from
subprocess.run propagates, discarding earlier entries. -/
def run_pylint : List (String × ToolRun) → Except String (List Json)
  | [] => .ok []
  | (f, r) :: rest =>
    match r with
    | .raised msg => .error msg
    | .output (some j) => (run_pylint rest).map (fun l => j :: l)
    | .output none =>
        (run_pylint rest).map
          (fun l => Json.obj [("file", Json.str f), ("error", Json.str "pylint failed")] :: l)

/-- The environment one call of `scan_project` runs in: the outcome of each
tool invocation and whether `requirements.txt` exists in the project root. -/
structure ScanEnv where
  bandit : ToolRun
  semgrep : ToolRun
  manifestExists : Bool
  pip_audit : ToolRun
  pylint : List (String × ToolRun)

/-- The aggregator `scan_project` (scanner.py lines 58-78): run the four
analyzers in order and assemble the result document.  An exception from any
adapter propagates and aborts the whole aggregation. -/
def scan_project (env : ScanEnv) : Except String Json := do
  let bandit_results ← run_bandit env.bandit
  let semgrep_results ← run_semgrep env.semgrep
  let pip_audit_results ← run_pip_audit env.manifestExists env.pip_audit
  let pylint_results ← run_pylint env.pylint
  return Json.obj
    [ ("static_code_analysis",
        Json.obj [("bandit", bandit_results), ("semgrep", semgrep_results)]),
      ("dependency_scan", pip_audit_results),
      ("coding_standards", Json.arr pylint_results),
      ("summary", Json.str "Scan completed") ]

/-- The tool invocation completed without `subprocess.run` raising. -/
def noRaise : ToolRun → Bool
  | .raised _ => false
  | .output _ => true

/-- Every tool invocation of the environment completes without raising. -/
def envCompletes (env : ScanEnv) : Prop :=
  noRaise env.bandit = true ∧ noRaise env.semgrep = true ∧
    noRaise env.pip_audit = true ∧ ∀ p ∈ env.pylint, noRaise p.2 = true

instance (env : ScanEnv) : Decidable (envCompletes env) := by
  unfold envCompletes; infer_instance

/-- What a completed (non-raising) adapter invocation contributes: the
parsed stdout, or the tagged parse-failure object of the adapter. -/
def parsedOrError (r : ToolRun) (msg : String) : Json :=
  match r with
  | .output (some j) => j
  | _ => Json.obj [("error", Json.str msg)]

/-- What a completed pylint invocation on file `f` contributes. -/
def pylintEntry (f : String) (r : ToolRun) : Json :=
  match r with
  | .output (some j) => j
  | _ => Json.obj [("file", Json.str f), ("error", Json.str "pylint failed")]

/-- The dependency-audit entry of the result document. -/
def pipEntry (env : ScanEnv) : Json :=
  if env.manifestExists then parsedOrError env.pip_audit "pip-audit failed"
  else noManifestResult

/-- The result document `scan_project` assembles when no adapter raises. -/
def scanDoc (env : ScanEnv) : Json :=
  Json.obj
    [ ("static_code_analysis",
        Json.obj [("bandit", parsedOrError env.bandit "Bandit scan failed"),
                  ("semgrep", parsedOrError env.semgrep "Semgrep scan failed")]),
      ("dependency_scan", pipEntry env),
      ("coding_standards", Json.arr (env.pylint.map (fun p => pylintEntry p.1 p.2))),
      ("summary", Json.str "Scan completed") ]

/-- One row of the `jobs` table (`backend/models.py` lines 9-21).  The
surrogate integer primary key is not modelled (nothing reads it); `result`
holds the parsed form of the JSON text stored in the `Text` column
(`json.dumps` / `json.loads` round-trip); timestamps are abstract ticks. -/
structure JobRecord where
  job_id : String
  filename : String
  status : String
  summary : Option String
  result : Option Json
  created_at : Option Nat
  updated_at : Option Nat
  completed_at : Option Nat
deriving Repr

/-- The `Job(...)` record created by `upload_project` (`backend/main.py`
lines 185-192): status pending, result set to the serialized empty object,
summary and `completed_at` left unset. -/
def uploadJob (jid fname : String) (t : Nat) : JobRecord :=
  { job_id := jid, filename := fname, status := "pending", summary := none,
    result := some (Json.obj []), created_at := some t, updated_at := some t,
    completed_at := none }

/-- The first committed mutation of `run_scan_task` (`backend/tasks.py`
lines 21-23): mark the job `"ongoing"` and touch `updated_at`.  Note the
source writes `"ongoing"` here, not `"running"`. -/
def markOngoing (n1 : Nat) (job : JobRecord) : JobRecord :=
  { job with status := "ongoing", updated_at := some n1 }

/-- What the call to `scan_project` did from the point of view of the
executor: returned a document, or raised, carrying the exception message
and the formatted traceback. -/
inductive ScanOutcome where
  | ok (doc : Json)
  | raised (msg trace : String)

/-- The result document stored on the failure path (`backend/tasks.py`
line 39). -/
def errDoc (msg trace : String) : Json :=
  Json.obj [("error", Json.str msg), ("trace", Json.str trace)]

/-- The summary stored on success (`backend/tasks.py` line 31): the text
"Scan finished with N issues", where N is the length of the list the
document binds to the key "issues", defaulting to the empty list — a key
`scan_project` never produces. -/
def scanSummary (doc : Json) : String :=
  "Scan finished with " ++ toString (pyList (pyGetD doc "issues" (Json.arr []))).length
    ++ " issues"

/-- The terminal mutation of `run_scan_task` (`backend/tasks.py` lines
28-41), applied to the job row as already mutated by the `"ongoing"` mark:
on success set `"completed"`, store the document, the summary and both
`completed_at` and `updated_at`; on an exception set `"failed"`, store the
error document and touch only `updated_at` (`completed_at` is not set). -/
def finishScan (outcome : ScanOutcome) (n2 : Nat) (job : JobRecord) : JobRecord :=
  match outcome with
  | .ok doc =>
      { job with status := "completed", result := some doc,
                 summary := some (scanSummary doc),
                 completed_at := some n2, updated_at := some n2 }
  | .raised msg trace =>
      { job with status := "failed", result := some (errDoc msg trace),
                 updated_at := some n2 }

/-- The task `run_scan_task` (`backend/tasks.py` lines 13-43) acting on the
one job row it queries (`none` models the absence of a row with this
job_id): return silently when the job is absent, otherwise mark it ongoing
and drive it to a terminal state according to the scan outcome.  The only
guard in the source is the existence check — the current status is never
inspected. -/
def run_scan_task (outcome : ScanOutcome) (n1 n2 : Nat) :
    Option JobRecord → Option JobRecord
  | none => none
  | some job => some (finishScan outcome n2 (markOngoing n1 job))

/-- The `ScanOutcome` produced by running `scan_project` in environment
`env`; `trace` is the traceback text captured when it raised. -/
def outcomeOfEnv (env : ScanEnv) (trace : String) : ScanOutcome :=
  match scan_project env with
  | .ok doc => .ok doc
  | .error msg => .raised msg trace

/-- Job rows reachable through the scheduled lifecycle: created by the
submission path, then optionally driven by the single task `upload_project`
enqueues for it — including the intermediate committed `"ongoing"` state. -/
inductive JobReachable : JobRecord → Prop where
  | submitted (jid fname : String) (t : Nat) :
      JobReachable (uploadJob jid fname t)
  | marked (jid fname : String) (t n1 : Nat) :
      JobReachable (markOngoing n1 (uploadJob jid fname t))
  | finished (jid fname : String) (t n1 n2 : Nat) (env : ScanEnv) (tr : String)
      (j : JobRecord)
      (h : run_scan_task (outcomeOfEnv env tr) n1 n2 (some (uploadJob jid fname t)) = some j) :
      JobReachable j

/-- The stored result document of the job is non-empty: present and, when
a JSON object, carrying at least one field (submission stores the
serialized empty object). -/
def resultNonEmpty (j : JobRecord) : Bool :=
  match j.result with
  | none => false
  | some (Json.obj fields) => !fields.isEmpty
  | some _ => true

/-- The Python endswith test on strings. -/
def strEndsWith (s suffix : String) : Bool :=
  suffix.data.isSuffixOf s.data

/-- Outcome of the upload handler toward the HTTP layer: the success
payload carrying the job identifier and the pending status, or an
exception propagating out of the handler (its except block re-raises). -/
inductive UploadResult where
  | ok (job_id : String)
  | raised (msg : String)

/-- The handler `upload_project` (`backend/main.py` lines 137-217) acting
on the jobs table: validate the filename (raising ValueError like the
source, whose except block logs and re-raises), save and extract the
archive (an extraction failure raises before any Job exists), then create
the pending job and enqueue the task.  `extractFails` abstracts the
archive-handling steps. -/
def upload_project (filename : Option String) (extractFails : Option String)
    (db : List JobRecord) (jid : String) (t : Nat) : UploadResult × List JobRecord :=
  match filename with
  | none => (.raised "No filename provided", db)
  | some f =>
    if f = "" then (.raised "No filename provided", db)
    else if !(strEndsWith f ".zip") then (.raised "File must be a ZIP file", db)
    else
      match extractFails with
      | some msg => (.raised msg, db)
      | none => (.ok jid, db ++ [uploadJob jid f t])

/-- Modelled from the spec: how the HTTP layer (outside the core, spec
section 6) surfaces the outcome of the handler.  Spec section 7 states
that uncaught exceptions during submission propagate to the caller as a
server error; the handler re-raises a plain ValueError rather than
producing a 4xx response, so no outcome of `upload_project` is a client
error. -/
def surfacedAsClientError : UploadResult → Bool
  | .ok _ => false
  | .raised _ => false

/-- The filename passes the validation in `upload_project`: present,
non-empty (Python truthiness of the filename) and ending in the zip
extension. -/
def validUploadFilename : Option String → Bool
  | none => false
  | some f => !(f = "") && strEndsWith f ".zip"

/-- Line 396 of `backend/main.py`: the bandit results list, read through
the keys static_code_analysis, bandit, results, each level defaulting to
empty when absent. -/
def banditIssues (scan_results : Json) : List Json :=
  pyList (pyGetD (pyGetD (pyGetD scan_results "static_code_analysis" (Json.obj []))
    "bandit" (Json.obj [])) "results" (Json.arr []))

/-- Line 397 of `backend/main.py`: the semgrep results list. -/
def semgrepIssues (scan_results : Json) : List Json :=
  pyList (pyGetD (pyGetD (pyGetD scan_results "static_code_analysis" (Json.obj []))
    "semgrep" (Json.obj [])) "results" (Json.arr []))

/-- Line 398 of `backend/main.py`: the dependency vulnerabilities list,
read through the keys dependency_analysis, pip_audit, vulnerabilities,
each level defaulting to empty when absent — note the top key read here is
dependency_analysis, while the scanner stores the audit under
dependency_scan. -/
def pipAuditIssues (scan_results : Json) : List Json :=
  pyList (pyGetD (pyGetD (pyGetD scan_results "dependency_analysis" (Json.obj []))
    "pip_audit" (Json.obj [])) "vulnerabilities" (Json.arr []))

/-- Comparison of the issue_severity field of one finding against `sev`
(`backend/main.py` lines 401-402): a missing key compares unequal. -/
def hasIssueSeverity (sev : String) (r : Json) : Bool :=
  match r.getEntry "issue_severity" with
  | some (Json.str s) => s == sev
  | _ => false

/-- The Python two-argument min on numbers. -/
def pyMin (a b : ℚ) : ℚ := if a ≤ b then a else b

/-- The Python two-argument max on numbers. -/
def pyMax (a b : ℚ) : ℚ := if a ≤ b then b else a

/-- The security score computed inside `generate_html_report`
(`backend/main.py` lines 395-409), exact rational arithmetic standing for
the Python int/float arithmetic (all quantities are multiples of one half,
which floats represent exactly). -/
def securityScore (scan_results : Json) : ℚ :=
  let bandit_results := banditIssues scan_results
  let semgrep_results := semgrepIssues scan_results
  let pip_audit_results := pipAuditIssues scan_results
  let total_issues : ℚ :=
    ((bandit_results.length + semgrep_results.length + pip_audit_results.length : Nat) : ℚ)
  let critical_issues : ℚ := ((bandit_results.filter (hasIssueSeverity "HIGH")).length : ℚ)
  let high_issues : ℚ := ((bandit_results.filter (hasIssueSeverity "MEDIUM")).length : ℚ)
  let score : ℚ := 10 - critical_issues * 3 - high_issues * 1
    - (total_issues - critical_issues - high_issues) * (1 / 2)
  pyMax 0 (pyMin 10 score)

/-! Concrete inputs used by the counterexamples and witnesses. -/

/-- Environment in which the bandit binary is missing: `subprocess.run`
raises `FileNotFoundError` before any output can be parsed. -/
def envC1 : ScanEnv :=
  { bandit := .raised "No such file or directory: bandit",
    semgrep := .output (some (Json.obj [("results", Json.arr [])])),
    manifestExists := false,
    pip_audit := .output (some Json.null),
    pylint := [] }

/-- Environment in which every tool runs but bandit and one pylint
invocation emit unparseable output. -/
def envC1w : ScanEnv :=
  { bandit := .output none,
    semgrep := .output (some (Json.obj [("results", Json.arr [])])),
    manifestExists := true,
    pip_audit := .output none,
    pylint := [("app.py", .output none)] }

/-- A job row already in the terminal `completed` state. -/
def completedJob : JobRecord :=
  { job_id := "j2", filename := "app.zip", status := "completed",
    summary := some "Scan finished with 0 issues",
    result := some (Json.obj [("summary", Json.str "Scan completed")]),
    created_at := some 1, updated_at := some 3, completed_at := some 3 }

/-- The row `run_scan_task` leaves behind when redelivered for
`completedJob` and the scan raises. -/
def completedJobAfter : JobRecord :=
  { completedJob with status := "failed",
                      result := some (errDoc "boom" "Traceback"),
                      updated_at := some 8 }

/-- Environment in which the bandit invocation itself raises, so the whole
scan raises inside the executor. -/
def envC3 : ScanEnv :=
  { bandit := .raised "scan blew up",
    semgrep := .output (some Json.null),
    manifestExists := false,
    pip_audit := .output (some Json.null),
    pylint := [] }

/-- The row the executor leaves after the scan for a fresh job raised. -/
def failedJobC3 : JobRecord :=
  { job_id := "j3", filename := "a.zip", status := "failed", summary := none,
    result := some (errDoc "scan blew up" "tb3"), created_at := some 0,
    updated_at := some 2, completed_at := none }

/-- One bandit finding of medium severity. -/
def mediumFinding : Json :=
  Json.obj [("issue_severity", Json.str "MEDIUM"),
            ("issue_text", Json.str "Possible SQL injection")]

/-- The result document of a scan of a project with no dependency manifest
whose static analysis found exactly three medium-severity issues. -/
def threeMediumDoc : Json :=
  Json.obj
    [ ("static_code_analysis", Json.obj
        [ ("bandit", Json.obj
            [("results", Json.arr [mediumFinding, mediumFinding, mediumFinding])]),
          ("semgrep", Json.obj [("results", Json.arr [])]) ]),
      ("dependency_scan", noManifestResult),
      ("coding_standards", Json.arr []),
      ("summary", Json.str "Scan completed") ]

/-- The two vulnerability entries of a pip-audit run that found issues. -/
def pipVulnList : List Json :=
  [Json.obj [("id", Json.str "PYSEC-2023-74")],
   Json.obj [("id", Json.str "PYSEC-2024-38")]]

/-- Raw pip-audit output reporting two vulnerabilities in one package. -/
def pipAuditOut : Json :=
  Json.obj [("dependencies", Json.arr
    [Json.obj [("name", Json.str "requests"),
               ("version", Json.str "2.19.0"),
               ("vulns", Json.arr pipVulnList)]])]

/-- The result document of a scan with no static findings whose
dependency audit reported the two vulnerabilities of `pipAuditOut`,
stored — as the scanner stores it — under `dependency_scan`. -/
def depVulnDoc : Json :=
  Json.obj
    [ ("static_code_analysis", Json.obj
        [ ("bandit", Json.obj [("results", Json.arr [])]),
          ("semgrep", Json.obj [("results", Json.arr [])]) ]),
      ("dependency_scan", pipAuditOut),
      ("coding_standards", Json.arr []),
      ("summary", Json.str "Scan completed") ]

/-- The bandit output of a scan that found two medium-severity issues. -/
def banditOutC8 : Json :=
  Json.obj [("results", Json.arr [mediumFinding, mediumFinding])]

/-- Environment of a scan whose bandit run reports two findings and whose
other analyzers report nothing. -/
def envC8 : ScanEnv :=
  { bandit := .output (some banditOutC8),
    semgrep := .output (some (Json.obj [("results", Json.arr [])])),
    manifestExists := false,
    pip_audit := .output (some Json.null),
    pylint := [] }

/-- The result document `scan_project` assembles in `envC8`. -/
def docC8 : Json :=
  Json.obj
    [ ("static_code_analysis", Json.obj
        [ ("bandit", banditOutC8),
          ("semgrep", Json.obj [("results", Json.arr [])]) ]),
      ("dependency_scan", noManifestResult),
      ("coding_standards", Json.arr []),
      ("summary", Json.str "Scan completed") ]

/-- The completed row the executor stores for the `envC8` scan. -/
def jobC8 : JobRecord :=
  { job_id := "j8", filename := "proj.zip", status := "completed",
    summary := some "Scan finished with 0 issues",
    result := some docC8, created_at := some 0, updated_at := some 2,
    completed_at := some 2 }

/-- Environment whose analyzers all complete, one of them with a parse
failure and one pylint file parsed successfully. -/
def envC9 : ScanEnv :=
  { bandit := .output none,
    semgrep := .output (some (Json.obj
      [("results", Json.arr [Json.obj [("check_id", Json.str "rule-1")]])])),
    manifestExists := false,
    pip_audit := .output none,
    pylint := [("m.py", .output (some (Json.arr [])))] }

lemma run_bandit_of_noRaise (r : ToolRun) (h : noRaise r = true) :
    run_bandit r = .ok (parsedOrError r "Bandit scan failed") := by
  cases r with
  | raised m => simp [noRaise] at h
  | output p => cases p <;> rfl

lemma run_semgrep_of_noRaise (r : ToolRun) (h : noRaise r = true) :
    run_semgrep r = .ok (parsedOrError r "Semgrep scan failed") := by
  cases r with
  | raised m => simp [noRaise] at h
  | output p => cases p <;> rfl

lemma run_pip_audit_of_noRaise (m : Bool) (r : ToolRun) (h : noRaise r = true) :
    run_pip_audit m r =
      .ok (if m then parsedOrError r "pip-audit failed" else noManifestResult) := by
  cases m with
  | false => rfl
  | true =>
    cases r with
    | raised s => simp [noRaise] at h
    | output p => cases p <;> rfl

lemma run_pylint_of_noRaise (files : List (String × ToolRun))
    (h : ∀ p ∈ files, noRaise p.2 = true) :
    run_pylint files = .ok (files.map (fun p => pylintEntry p.1 p.2)) := by
  induction files with
  | nil => rfl
  | cons hd tl ih =>
    have hhd : noRaise hd.2 = true := h hd (List.mem_cons_self _ _)
    have htl := ih (fun p hp => h p (List.mem_cons_of_mem _ hp))
    obtain ⟨f, r⟩ := hd
    cases r with
    | raised m => simp [noRaise] at hhd
    | output p =>
      cases p <;> simp [run_pylint, htl, pylintEntry, Except.map]

lemma scan_project_of_envCompletes (env : ScanEnv) (h : envCompletes env) :
    scan_project env = .ok (scanDoc env) := by
  obtain ⟨hb, hs, hp, hl⟩ := h
  simp [scan_project, run_bandit_of_noRaise _ hb, run_semgrep_of_noRaise _ hs,
    run_pip_audit_of_noRaise _ _ hp, run_pylint_of_noRaise _ hl, scanDoc, pipEntry,
    Bind.bind, Except.bind, Pure.pure, Except.pure]

lemma scan_project_ok_shape (env : ScanEnv) (doc : Json)
    (h : scan_project env = .ok doc) :
    ∃ b s p l, doc = Json.obj
      [ ("static_code_analysis", Json.obj [("bandit", b), ("semgrep", s)]),
        ("dependency_scan", p),
        ("coding_standards", Json.arr l),
        ("summary", Json.str "Scan completed") ] := by
  unfold scan_project at h
  cases hb : run_bandit env.bandit with
  | error e => simp [hb, Bind.bind, Except.bind] at h
  | ok b =>
    cases hs : run_semgrep env.semgrep with
    | error e => simp [hb, hs, Bind.bind, Except.bind] at h
    | ok s =>
      cases hp : run_pip_audit env.manifestExists env.pip_audit with
      | error e => simp [hb, hs, hp, Bind.bind, Except.bind] at h
      | ok p =>
        cases hl : run_pylint env.pylint with
        | error e => simp [hb, hs, hp, hl, Bind.bind, Except.bind] at h
        | ok l =>
          refine ⟨b, s, p, l, ?_⟩
          simp [hb, hs, hp, hl, Bind.bind, Except.bind, Pure.pure, Except.pure] at h
          exact h.symm

end DWAS

namespace DWAS

/-- C1: claims every adapter failure mode (parse failure, nonzero exit,
timeout, missing tool binary) yields a tagged error value instead of
raising.  False for a missing tool binary: nothing in `run_bandit` catches
the exception subprocess.run raises, so it propagates and aborts
`scan_project` — the remaining analyzers never contribute. -/
theorem C1_counterexample :
    run_bandit (ToolRun.raised "No such file or directory: bandit")
      = Except.error "No such file or directory: bandit" ∧
    scan_project envC1 = Except.error "No such file or directory: bandit" :=
  ⟨rfl, rfl⟩

/-- C1 (amended): when every subprocess invocation completes, each adapter
turns a parse failure (including unparseable output after a nonzero exit)
into its tagged error object and `scan_project` returns the full document
with the entry of every analyzer present; only an exception raised by the
invocation itself (e.g. a missing tool binary — and no timeout is ever
passed to subprocess.run) escapes the adapter. -/
theorem C1_parse_failures_isolated (env : ScanEnv) (h : envCompletes env) :
    scan_project env = Except.ok (scanDoc env) :=
  scan_project_of_envCompletes env h

/-- C1 witness: a run in which bandit, pip-audit and one pylint invocation
all emit unparseable output still aggregates the entry of every
analyzer. -/
theorem C1_witness :
    envCompletes envC1w ∧ scan_project envC1w = Except.ok (scanDoc envC1w) :=
  ⟨by constructor <;> simp [envC1w, noRaise],
   C1_parse_failures_isolated envC1w (by constructor <;> simp [envC1w, noRaise])⟩

/-- C2: claims the executor checks the status of the job before
transitioning and leaves an already-terminal job unchanged.  False:
`run_scan_task` checks only existence, so a redelivered task for a
completed job re-marks it ongoing and then overwrites status, result and
`updated_at`. -/
theorem C2_counterexample :
    run_scan_task (ScanOutcome.raised "boom" "Traceback") 7 8 (some completedJob)
      = some completedJobAfter ∧
    completedJob.status = "completed" ∧
    completedJobAfter.status = "failed" ∧
    completedJobAfter.result ≠ completedJob.result ∧
    completedJobAfter.updated_at ≠ completedJob.updated_at := by
  refine ⟨rfl, rfl, rfl, ?_, ?_⟩ <;>
    simp [completedJob, completedJobAfter, errDoc]

/-- C2 (amended): the only guard in the executor is existence — a task for a
deleted job is a silent no-op, and for any job it finds (whatever its
status, terminal included) it unconditionally re-marks it `"ongoing"` and
drives it to `completed` or `failed`, overwriting the stored result and
timestamps; redelivery for a terminal job is therefore not a no-op. -/
theorem C2_executor_guards_existence_only :
    (∀ (o : ScanOutcome) (n1 n2 : Nat), run_scan_task o n1 n2 none = none) ∧
    (∀ (o : ScanOutcome) (n1 n2 : Nat) (job : JobRecord),
      run_scan_task o n1 n2 (some job)
        = some (finishScan o n2 (markOngoing n1 job)) ∧
      ((finishScan o n2 (markOngoing n1 job)).status = "completed" ∨
        (finishScan o n2 (markOngoing n1 job)).status = "failed")) := by
  refine ⟨fun o n1 n2 => rfl, fun o n1 n2 job => ⟨rfl, ?_⟩⟩
  cases o with
  | ok doc => exact Or.inl rfl
  | raised msg trace => exact Or.inr rfl

/-- C6: when no `requirements.txt` exists in the project root,
`run_pip_audit` returns `noManifestResult` — an explicit
zero-vulnerability success carrying no error key — and the
result is the same for every possible tool invocation outcome, i.e. the
external pip-audit tool is never consulted. -/
theorem C6_no_manifest_reports_zero_vulnerabilities (r : ToolRun) :
    run_pip_audit false r = Except.ok noManifestResult ∧
    noManifestResult.getEntry "vulnerabilities_found" = some (Json.num 0) ∧
    noManifestResult.getEntry "error" = none :=
  ⟨rfl, rfl, rfl⟩

/-- C3: claims `completed_at` is set if and only if the status is
`completed` or `failed`.  False: the failure branch of the executor sets
`failed` without touching `completed_at`, so a job whose scan raised is
`failed` with `completed_at` still unset. -/
theorem C3_counterexample :
    run_scan_task (outcomeOfEnv envC3 "tb3") 1 2 (some (uploadJob "j3" "a.zip" 0))
      = some failedJobC3 ∧
    failedJobC3.status = "failed" ∧
    ¬ (failedJobC3.completed_at.isSome = true ↔
        (failedJobC3.status = "completed" ∨ failedJobC3.status = "failed")) :=
  ⟨rfl, rfl, by decide⟩

/-- C3 (amended): for every job row produced by the submission path and
its one scheduled executor run (the intermediate committed `ongoing` state
included), `completed_at` is set if and only if the status is `completed`
— the failure branch leaves it unset. -/
theorem C3_completed_at_iff_completed (j : JobRecord) (h : JobReachable j) :
    j.completed_at.isSome = true ↔ j.status = "completed" := by
  cases h with
  | submitted jid fname t => simp [uploadJob]
  | marked jid fname t n1 => simp [markOngoing, uploadJob]
  | finished jid fname t n1 n2 env tr j h =>
    cases hs : scan_project env with
    | ok doc =>
      simp [run_scan_task, outcomeOfEnv, hs] at h
      subst h
      simp [finishScan, markOngoing, uploadJob]
    | error msg =>
      simp [run_scan_task, outcomeOfEnv, hs] at h
      subst h
      simp [finishScan, markOngoing, uploadJob]

/-- C3 witness: the theorem applied to a freshly submitted pending job. -/
theorem C3_witness :
    JobReachable (uploadJob "w3" "w.zip" 0) ∧
      ((uploadJob "w3" "w.zip" 0).completed_at.isSome = true ↔
        (uploadJob "w3" "w.zip" 0).status = "completed") :=
  ⟨JobReachable.submitted "w3" "w.zip" 0,
   C3_completed_at_iff_completed _ (JobReachable.submitted "w3" "w.zip" 0)⟩

/-- C4: for every job row produced by the submission path and its one
scheduled executor run, the stored result document is non-empty if and
only if the status is terminal (`completed` or `failed`); while the job is
pending or being scanned the stored result is the serialized empty object. -/
theorem C4_result_nonempty_iff_terminal (j : JobRecord) (h : JobReachable j) :
    resultNonEmpty j = true ↔ (j.status = "completed" ∨ j.status = "failed") := by
  cases h with
  | submitted jid fname t => simp [uploadJob, resultNonEmpty]
  | marked jid fname t n1 => simp [markOngoing, uploadJob, resultNonEmpty]
  | finished jid fname t n1 n2 env tr j h =>
    cases hs : scan_project env with
    | ok doc =>
      obtain ⟨b, s, p, l, rfl⟩ := scan_project_ok_shape env doc hs
      simp [run_scan_task, outcomeOfEnv, hs] at h
      subst h
      simp [finishScan, markOngoing, uploadJob, resultNonEmpty]
    | error msg =>
      simp [run_scan_task, outcomeOfEnv, hs] at h
      subst h
      simp [finishScan, markOngoing, uploadJob, resultNonEmpty, errDoc]

/-- C4 witness: the theorem applied to a freshly submitted pending job,
whose stored result is the empty object and whose status is not terminal. -/
theorem C4_witness :
    JobReachable (uploadJob "w4" "w.zip" 0) ∧
      (resultNonEmpty (uploadJob "w4" "w.zip" 0) = true ↔
        ((uploadJob "w4" "w.zip" 0).status = "completed" ∨
          (uploadJob "w4" "w.zip" 0).status = "failed")) :=
  ⟨JobReachable.submitted "w4" "w.zip" 0,
   C4_result_nonempty_iff_terminal _ (JobReachable.submitted "w4" "w.zip" 0)⟩

/-- C5: the claimed clamp formula holds on the static-analysis side and
yields 7.0 on the example of the spec (three medium-severity bandit findings,
no dependency manifest), but dependency-audit findings are never pooled:
`generate_html_report` reads `dependency_analysis.pip_audit.vulnerabilities`
while the scanner stores the audit under `dependency_scan`, so a document
whose audit reported two vulnerabilities still scores 10. -/
theorem C5_score_ignores_dependency_findings :
    securityScore threeMediumDoc = 7 ∧
    (banditIssues threeMediumDoc).filter (hasIssueSeverity "MEDIUM")
      = [mediumFinding, mediumFinding, mediumFinding] ∧
    pipVulnList.length = 2 ∧
    depVulnDoc.getEntry "dependency_scan" = some pipAuditOut ∧
    pipAuditIssues depVulnDoc = [] ∧
    securityScore depVulnDoc = 10 := by
  refine ⟨?_, rfl, rfl, rfl, rfl, ?_⟩
  · have hb : banditIssues threeMediumDoc = [mediumFinding, mediumFinding, mediumFinding] := rfl
    have hs : semgrepIssues threeMediumDoc = [] := rfl
    have hp : pipAuditIssues threeMediumDoc = [] := rfl
    have hfh : [mediumFinding, mediumFinding, mediumFinding].filter (hasIssueSeverity "HIGH")
        = [] := rfl
    have hfm : [mediumFinding, mediumFinding, mediumFinding].filter (hasIssueSeverity "MEDIUM")
        = [mediumFinding, mediumFinding, mediumFinding] := rfl
    unfold securityScore
    rw [hb, hs, hp]
    simp only [hfh, hfm, List.length_cons, List.length_nil, pyMin, pyMax]
    norm_num
  · have hb : banditIssues depVulnDoc = [] := rfl
    have hs : semgrepIssues depVulnDoc = [] := rfl
    have hp : pipAuditIssues depVulnDoc = [] := rfl
    unfold securityScore
    rw [hb, hs, hp]
    simp only [List.filter_nil, List.length_nil, pyMin, pyMax]
    norm_num

/-- C7: claims an upload with a missing filename or a non-`.zip` extension
fails with a client error.  False on the error kind: the handler raises a
plain `ValueError` which its `except` block re-raises, so the failure
propagates as an uncaught exception — per the error design a server
error, not a client error — though indeed no job row is created. -/
theorem C7_counterexample :
    upload_project (some "project.txt") none [] "jid7" 0
      = (UploadResult.raised "File must be a ZIP file", []) ∧
    surfacedAsClientError (UploadResult.raised "File must be a ZIP file") = false :=
  ⟨rfl, rfl⟩

/-- C7 (amended): an upload whose filename is missing, empty or lacking
the `.zip` extension raises a `ValueError` before any job row is created
(the jobs table is returned unchanged), and the propagated exception is
surfaced as a server error, not a client error. -/
theorem C7_invalid_upload_raises_before_job_creation
    (filename : Option String) (extractFails : Option String)
    (db : List JobRecord) (jid : String) (t : Nat)
    (h : validUploadFilename filename = false) :
    ∃ msg, upload_project filename extractFails db jid t
        = (UploadResult.raised msg, db) ∧
      surfacedAsClientError (UploadResult.raised msg) = false := by
  cases filename with
  | none => exact ⟨"No filename provided", rfl, rfl⟩
  | some f =>
    by_cases hf : f = ""
    · subst hf
      exact ⟨"No filename provided", rfl, rfl⟩
    · simp [validUploadFilename, hf] at h
      refine ⟨"File must be a ZIP file", ?_, rfl⟩
      simp [upload_project, hf, h]

/-- C7 witness: a `.tar` upload against an empty jobs table raises and
creates nothing. -/
theorem C7_witness :
    validUploadFilename (some "backup.tar") = false ∧
    ∃ msg, upload_project (some "backup.tar") none [] "w7" 5
        = (UploadResult.raised msg, []) ∧
      surfacedAsClientError (UploadResult.raised msg) = false :=
  ⟨by decide,
   C7_invalid_upload_raises_before_job_creation (some "backup.tar") none [] "w7" 5
     (by decide)⟩

/-- C8: claims the stored one-line summary counts the issues the analyzers
actually reported.  The executor counts the list the document binds to the
key "issues", but `scan_project` never produces such a key, so the summary
always reports 0 — here a completed scan whose
document carries two findings is stored with the summary
"Scan finished with 0 issues". -/
theorem C8_summary_ignores_reported_issues :
    run_scan_task (outcomeOfEnv envC8 "tb8") 1 2 (some (uploadJob "j8" "proj.zip" 0))
      = some jobC8 ∧
    (banditIssues docC8).length + (semgrepIssues docC8).length
        + (pipAuditIssues docC8).length = 2 ∧
    jobC8.summary = some "Scan finished with 0 issues" ∧
    jobC8.status = "completed" ∧ jobC8.result = some docC8 ∧
    jobC8.completed_at = some 2 :=
  ⟨rfl, rfl, rfl, rfl, rfl, rfl⟩

/-- C9: whenever every tool invocation completes (whether or not its
output parses), `scan_project` returns a document with exactly the four
top-level keys `static_code_analysis` (holding `bandit` and `semgrep`
entries), `dependency_scan` — not `dependency_analysis` — ,
`coding_standards`, and `summary` bound to "Scan completed". -/
theorem C9_scan_project_result_shape (env : ScanEnv) (h : envCompletes env) :
    ∃ b s p l, scan_project env = Except.ok (Json.obj
      [ ("static_code_analysis", Json.obj [("bandit", b), ("semgrep", s)]),
        ("dependency_scan", p),
        ("coding_standards", Json.arr l),
        ("summary", Json.str "Scan completed") ]) := by
  refine ⟨parsedOrError env.bandit "Bandit scan failed",
          parsedOrError env.semgrep "Semgrep scan failed",
          pipEntry env, env.pylint.map (fun p => pylintEntry p.1 p.2), ?_⟩
  exact scan_project_of_envCompletes env h

/-- C9 witness: the shape holds for a run mixing parse failures and
successes. -/
theorem C9_witness :
    envCompletes envC9 ∧
    ∃ b s p l, scan_project envC9 = Except.ok (Json.obj
      [ ("static_code_analysis", Json.obj [("bandit", b), ("semgrep", s)]),
        ("dependency_scan", p),
        ("coding_standards", Json.arr l),
        ("summary", Json.str "Scan completed") ]) :=
  ⟨by decide, C9_scan_project_result_shape envC9 (by decide)⟩

/-- C10: when the scan raises after the job was found, the failure path
rewrites only `status`, `result` and `updated_at`; `job_id`, `filename`,
`summary`, `created_at` and `completed_at` keep their prior values. -/
theorem C10_failure_path_frame (job : JobRecord) (msg trace : String) (n1 n2 : Nat) :
    ∃ j', run_scan_task (ScanOutcome.raised msg trace) n1 n2 (some job) = some j' ∧
      j'.job_id = job.job_id ∧ j'.filename = job.filename ∧
      j'.summary = job.summary ∧ j'.created_at = job.created_at ∧
      j'.completed_at = job.completed_at ∧
      j'.status = "failed" ∧ j'.result = some (errDoc msg trace) ∧
      j'.updated_at = some n2 :=
  ⟨_, rfl, rfl, rfl, rfl, rfl, rfl, rfl, rfl, rfl⟩

end DWAS
